import Mathlib

set_option maxRecDepth 100000

/-!
Shallow embedding of `ufo/agents/agent/evaluation_agent.py` (class
`EvaluationAgent`): the timer-override post-processing that `evaluate`
applies to the parsed LLM result (lines 217-268), the standalone
`_apply_timer_override_if_needed` (lines 122-186), and
`context_provision` (lines 93-116).

Python values are modelled as follows: machine floats become exact
rationals (`ℚ`); a value fetched from the shared context is either a
number (as seen by `float(...)`) or a value on which `float(...)`
raises; a dict key that may be absent becomes an `Option`; mutation of
the result dict becomes a pure function from result to result. String
helpers are written over `List Char` so every definition evaluates
inside the kernel.
-/

/-- Substring search on character lists: does the second list occur as a
contiguous run at the head of the first? (Helper for Python's `in`.) -/
def charsAtHead : List Char → List Char → Bool
  | _, [] => true
  | [], _ :: _ => false
  | c :: cs, d :: ds => c == d && charsAtHead cs ds

/-- Does `needle` occur contiguously anywhere in `hay`? -/
def charsOccur : List Char → List Char → Bool
  | [], needle => needle.isEmpty
  | c :: cs, needle => charsAtHead (c :: cs) needle || charsOccur cs needle

/-- Python's substring test `needle in hay` on strings. -/
def strContains (hay needle : String) : Bool :=
  charsOccur hay.data needle.data

/-- Python's `str.lower()`. The metric texts involved are ASCII, where
per-character lowercasing agrees with Python's. -/
def lowerStr (s : String) : String :=
  ⟨s.data.map Char.toLower⟩

/-- Python's `str.rstrip()`: drop trailing whitespace. -/
def rstripStr (s : String) : String :=
  ⟨(s.data.reverse.dropWhile Char.isWhitespace).reverse⟩

/-- A value read from the shared context by `context.get(...)` for the
timer keys, as seen by a subsequent `float(...)` call: either a value
that converts to the rational `q`, or one on which `float` raises
`TypeError`/`ValueError`. -/
inductive CtxValue where
  | num (q : ℚ)
  | nonNumeric
deriving DecidableEq

/-- `float(v)`, returning `none` when the conversion raises. -/
def toFloat : CtxValue → Option ℚ
  | .num q => some q
  | .nonNumeric => none

/-- One tool descriptor list per agent name, the shape stored under the
tool-information context key (a tool is represented by its `tool_name`). -/
abbrev ToolDict := List (String × List String)

/-- The shared `Context` object, restricted to the keys this component
reads. `none` for a timer key models `context.get` returning `None`
(the key is absent); `getRaises` models `context.get` itself raising.
`timerSatisfied` records the truthiness `bool(...)` of the value under
the duration-satisfied key (`bool(None)` is false, so an absent key is
`false`). `toolInfo` is the value under the tool-information key, `none`
when the lookup yields no mapping. -/
structure Context where
  timerLimit : Option CtxValue
  timerElapsed : Option CtxValue
  timerSatisfied : Bool
  getRaises : Bool
  toolInfo : Option ToolDict
deriving DecidableEq

/-- One entry of the result's `sub_scores` list. A missing or `None`
`metric`/`evaluation` field is modelled by `""` (the code reads
`s.get("metric") or ""`; an absent `evaluation` never compares equal to
a glyph, and neither does `""`). -/
structure SubScore where
  metric : String
  evaluation : String
deriving DecidableEq

/-- The parsed LLM result mapping, restricted to the keys the override
touches. `none` models an absent key. -/
structure EvalResult where
  task_is_complete : Option Bool
  sub_scores : Option (List SubScore)
  reason : Option String
deriving DecidableEq

/-- Models Python's fixed-point formatting `f"{q:.1f}"` for the timer
note: the integer `⌊q * 10⌋` (computed as a floor division on the
numerator and denominator so the kernel can evaluate it) split into
whole and tenths digits. It agrees with CPython's round-half-even
formatting whenever the value has at most one decimal digit — every
value the claims use. -/
def fmtOneDec (q : ℚ) : String :=
  let n : Nat := ((10 * q.num).fdiv (q.den : ℤ)).toNat
  toString (n / 10) ++ "." ++ toString (n % 10)

/-- The explanatory note both override implementations append to the
reason text (their f-string fragments concatenate to the same string). -/
def overrideNote (elapsed limit : ℚ) : String :=
  "Timer override applied: internal timer reports elapsed "
    ++ fmtOneDec elapsed
    ++ "s for a requested limit of "
    ++ fmtOneDec limit
    ++ "s, so the duration requirement is considered satisfied."

/-- The keyword heuristic of `evaluate`'s inline override (lines
242-247): `"second" in metric or "duration" in metric or "minute" in
metric or "time" in metric`, on the lowercased metric text. -/
def metricMentionsDuration (metric : String) : Bool :=
  let m := lowerStr metric
  strContains m "second" || strContains m "duration"
    || strContains m "minute" || strContains m "time"

/-- Line 234 of `evaluate`:
`duration_ok = bool(satisfied_flag) or (elapsed >= limit)`. -/
def duration_ok (satisfied_flag : Bool) (elapsed limit : ℚ) : Bool :=
  satisfied_flag || decide (elapsed ≥ limit)

/-- The sub-score edit of `evaluate`'s inline override (lines 239-249):
a sub-score whose metric mentions a duration keyword has its
`evaluation` set to `"✅"` (unconditionally); others are untouched. -/
def overrideSub (s : SubScore) : SubScore :=
  if metricMentionsDuration s.metric then { s with evaluation := "✅" } else s

/-- The body of the `if duration_ok:` branch of `evaluate` (lines
236-268): flip the duration-related sub-scores, write the list back
under `sub_scores` (creating the key when absent, since
`result.get("sub_scores", [])` defaulted it to `[]`), set
`task_is_complete` to `True` only when that key is present (line 255:
`if "task_is_complete" in result:`), and append the note to `reason`
(the note becomes the whole reason when `result.get("reason") or ""`
is falsy). -/
def applyOverrideCore (elapsed limit : ℚ) (r : EvalResult) : EvalResult :=
  let subs := (r.sub_scores.getD []).map overrideSub
  let task := if r.task_is_complete.isSome then some true else r.task_is_complete
  let base := r.reason.getD ""
  let note := overrideNote elapsed limit
  { task_is_complete := task
    sub_scores := some subs
    reason := some (if base.isEmpty then note else base ++ "\n\n" ++ note) }

/-- Lines 217-268 of `evaluate`: the timer-override transformation
applied to the parsed result, given the optional context. When
`context.get` raises, all three values become `None`; conversion of
`limit`/`elapsed` by `float` on failure sets both to `None`; the
override body runs only under `if limit and elapsed is not None and
limit > 0` (for a float, truthiness of `limit` is subsumed by
`limit > 0`; when either raw value is `None` the guard already fails,
so collapsing that case to `none` here is behaviour-preserving). -/
def timerOverride (context : Option Context) (result : EvalResult) : EvalResult :=
  match context with
  | none => result
  | some ctx =>
    let limit := if ctx.getRaises then none else ctx.timerLimit
    let elapsed := if ctx.getRaises then none else ctx.timerElapsed
    let satisfied_flag := if ctx.getRaises then false else ctx.timerSatisfied
    match limit, elapsed with
    | some lv, some ev =>
      match toFloat lv, toFloat ev with
      | some l, some e =>
        if l > 0 then
          if duration_ok satisfied_flag e l then applyOverrideCore e l result
          else result
        else result
      | _, _ => result
    | _, _ => result

/-- The typed response object `_apply_timer_override_if_needed` works
on. `is_passed = none` models the attribute being absent
(`hasattr(result, "is_passed")` false); `reason : String` with `""` for
a falsy (`None` or empty) reason, which the code treats identically. -/
structure EvaluationAgentResponse where
  sub_scores : List SubScore
  is_passed : Option Bool
  reason : String
deriving DecidableEq

/-- The keyword heuristic of `_apply_timer_override_if_needed` (line
159): `any(k in metric_text for k in ["second", "seconds", "minute",
"duration", "time"])` on the lowercased metric. -/
def metricMentionsDurationKw (metric : String) : Bool :=
  let m := lowerStr metric
  (["second", "seconds", "minute", "duration", "time"]).any
    (fun k => strContains m k)

/-- The sub-score edit of `_apply_timer_override_if_needed` (lines
156-161): flip a duration-related sub-score from `"❌"` to `"✅"`;
anything else (including `"❓"`) is untouched. -/
def flipDurationSub (s : SubScore) : SubScore :=
  if metricMentionsDurationKw s.metric && (s.evaluation == "❌") then
    { s with evaluation := "✅" }
  else s

/-- Line 151's guard `elapsed < 0.9 * limit`, written with denominators
cleared (both denominators are positive) so the kernel can evaluate it;
`belowNinetyPercent_iff` below proves it equal to the textbook form.
CPython's literal `0.9` is the double nearest 9/10; the embedding uses
the exact rational. -/
def belowNinetyPercent (elapsed limit : ℚ) : Bool :=
  decide (10 * elapsed.num * (limit.den : ℤ) < 9 * limit.num * (elapsed.den : ℤ))

/-- Lines 122-186: the standalone `_apply_timer_override_if_needed`.
Returns the input unchanged when the context lookups raise, either
timer value is `None`, `float` conversion fails, `limit <= 0`, or
`elapsed < 0.9 * limit`. Otherwise flips `"❌"` duration sub-scores to
`"✅"`, recomputes `is_passed` (when the attribute exists) as "no
sub-score is `"❌"`", and appends the note unless it is already present
in the reason (`rstrip` plus blank-line separator when the reason is
non-empty). It never reads the duration-satisfied flag. -/
def applyTimerOverrideIfNeeded (context : Context)
    (result : EvaluationAgentResponse) : EvaluationAgentResponse :=
  let elapsedV := if context.getRaises then none else context.timerElapsed
  let limitV := if context.getRaises then none else context.timerLimit
  match elapsedV, limitV with
  | some ev, some lv =>
    match toFloat ev, toFloat lv with
    | some elapsed, some limit =>
      if limit ≤ 0 then result
      else if belowNinetyPercent elapsed limit then result
      else
        let subs := result.sub_scores.map flipDurationSub
        let passed :=
          if result.is_passed.isSome then
            some (subs.all (fun s => !(s.evaluation == "❌")))
          else result.is_passed
        let note := overrideNote elapsed limit
        let reason :=
          if result.reason.isEmpty then note
          else if strContains result.reason note then result.reason
          else rstripStr result.reason ++ "\n\n" ++ note
        { sub_scores := subs, is_passed := passed, reason := reason }
    | _, _ => result
  | _, _ => result

/-- Lines 93-116: `context_provision`. With no context it returns
immediately. Otherwise it fetches the tool-information mapping and
iterates over it with `for agent_name in tool_info_dict:`; iterating
over `None` (the lookup yielded no mapping) raises `TypeError`, which
nothing in the function catches. Logging and the final hand-off to the
prompter have no observable effect here beyond completing normally. -/
def context_provision (context : Option Context) : Except String Unit :=
  match context with
  | none => .ok ()
  | some ctx =>
    match ctx.toolInfo with
    | none => .error "TypeError: argument of type NoneType is not iterable"
    | some _ => .ok ()

/-- A context whose timer keys hold the numbers `limit` and `elapsed`
and whose duration-satisfied key has truthiness `sat`; lookups succeed
and no tool information is relevant. -/
def numericCtx (limit elapsed : ℚ) (sat : Bool) : Context :=
  { timerLimit := some (.num limit)
    timerElapsed := some (.num elapsed)
    timerSatisfied := sat
    getRaises := false
    toolInfo := some [] }

/-- The parsed result of the spec's five-minute scenario: one sub-score
`{"metric": "Completed within 5 minutes", "evaluation": "❌"}`, an
arbitrary prior overall verdict `t` and an arbitrary prior reason. -/
def fiveMinuteScenario (t : Bool) (reason0 : Option String) : EvalResult :=
  { task_is_complete := some t
    sub_scores := some [{ metric := "Completed within 5 minutes", evaluation := "❌" }]
    reason := reason0 }

/-- The failure of the override preconditions of lines 217-233, as the
spec lists them: no context, the context lookup raising, a missing or
non-numeric timer value, or a non-positive limit. -/
def overridePreconditionFails (context : Option Context) : Bool :=
  match context with
  | none => true
  | some ctx =>
    ctx.getRaises ||
      match ctx.timerLimit, ctx.timerElapsed with
      | some lv, some ev =>
        match toFloat lv, toFloat ev with
        | some l, some _ => decide (l ≤ 0)
        | _, _ => true
      | _, _ => true

/-- The denominator-cleared guard is the source's `elapsed < 0.9 * limit`. -/
theorem belowNinetyPercent_iff (e l : ℚ) :
    belowNinetyPercent e l = true ↔ e < 9 / 10 * l := by
  have hde : (0:ℚ) < (e.den : ℚ) := by exact_mod_cast e.den_pos
  have hdl : (0:ℚ) < 10 * (l.den : ℚ) := by
    have : (0:ℚ) < (l.den : ℚ) := by exact_mod_cast l.den_pos
    linarith
  rw [belowNinetyPercent, decide_eq_true_eq]
  conv_rhs => rw [← Rat.num_div_den e, ← Rat.num_div_den l]
  rw [show ∀ x y : ℚ, (9:ℚ) / 10 * (x / y) = 9 * x / (10 * y) from fun x y => by ring]
  rw [div_lt_div_iff₀ hde hdl]
  rw [show (e.num : ℚ) * (10 * (l.den : ℚ)) = ((10 * e.num * (l.den : ℤ) : ℤ) : ℚ) by
        push_cast; ring,
      show 9 * (l.num : ℚ) * (e.den : ℚ) = ((9 * l.num * (e.den : ℤ) : ℤ) : ℚ) by
        push_cast; ring,
      Int.cast_lt]

/-- With a numeric context the inline override reduces to its two
guards around `applyOverrideCore`. -/
theorem timerOverride_numericCtx (l e : ℚ) (sat : Bool) (r : EvalResult) :
    timerOverride (some (numericCtx l e sat)) r =
      if l > 0 then
        if duration_ok sat e l then applyOverrideCore e l r else r
      else r := rfl

/-- The inline override either leaves the result untouched or applies
`applyOverrideCore` at the converted timer values. -/
theorem timerOverride_cases (context : Option Context) (r : EvalResult) :
    timerOverride context r = r ∨
      ∃ e l : ℚ, timerOverride context r = applyOverrideCore e l r := by
  cases context with
  | none => exact Or.inl rfl
  | some ctx =>
    rcases ctx with ⟨tl, te, sat, gr, ti⟩
    cases gr with
    | true => exact Or.inl rfl
    | false =>
      cases tl with
      | none => exact Or.inl rfl
      | some lv =>
        cases te with
        | none => exact Or.inl rfl
        | some ev =>
          cases lv with
          | nonNumeric => exact Or.inl rfl
          | num lq =>
            cases ev with
            | nonNumeric => exact Or.inl rfl
            | num eq =>
              have heq : timerOverride
                  (some ⟨some (.num lq), some (.num eq), sat, false, ti⟩) r =
                  if lq > 0 then
                    if duration_ok sat eq lq then applyOverrideCore eq lq r else r
                  else r := rfl
              rw [heq]
              by_cases hl : lq > 0
              · rw [if_pos hl]
                by_cases hok : duration_ok sat eq lq = true
                · rw [if_pos hok]
                  exact Or.inr ⟨eq, lq, rfl⟩
                · rw [if_neg hok]
                  exact Or.inl rfl
              · rw [if_neg hl]
                exact Or.inl rfl

/-- The override note is at least as long as its leading fragment. -/
theorem overrideNote_length_pos (e l : ℚ) : 0 < (overrideNote e l).length := by
  have h55 : ("Timer override applied: internal timer reports elapsed ").length = 55 := by
    decide
  rw [overrideNote, String.length_append, String.length_append, String.length_append,
    String.length_append]
  omega

/-- The override note is never the empty string. -/
theorem overrideNote_ne_empty (e l : ℚ) : overrideNote e l ≠ "" := by
  intro h
  have hpos := overrideNote_length_pos e l
  rw [h] at hpos
  exact absurd hpos (by decide)

/-- `applyOverrideCore` always alters the reason field. -/
theorem applyOverrideCore_changes_reason (e l : ℚ) (r : EvalResult) :
    (applyOverrideCore e l r).reason ≠ r.reason := by
  have hpos := overrideNote_length_pos e l
  cases hr : r.reason with
  | none => simp [applyOverrideCore, hr]
  | some s =>
    simp only [applyOverrideCore, hr, Option.getD_some]
    by_cases hs : s.isEmpty
    · rw [if_pos hs]
      intro hcon
      have hse : s = "" := (String.isEmpty_iff s).1 hs
      have hne : overrideNote e l = s := Option.some.inj hcon
      rw [hse] at hne
      exact overrideNote_ne_empty e l hne
    · rw [if_neg hs]
      intro hcon
      have hlen : (s ++ "\n\n" ++ overrideNote e l).length = s.length := by
        rw [Option.some.inj hcon]
      rw [String.length_append, String.length_append] at hlen
      omega

/-- `applyOverrideCore` never returns its input. -/
theorem applyOverrideCore_ne (e l : ℚ) (r : EvalResult) : applyOverrideCore e l r ≠ r :=
  fun h => applyOverrideCore_changes_reason e l r (congrArg EvalResult.reason h)

/-- Setting a matching sub-score to the pass glyph is idempotent. -/
theorem overrideSub_idem (s : SubScore) : overrideSub (overrideSub s) = overrideSub s := by
  cases h : metricMentionsDuration s.metric <;> simp [overrideSub, h]

/-- A substring of the right part occurs in an appended list. -/
theorem charsOccur_append_right (x y n : List Char) (h : charsOccur y n = true) :
    charsOccur (x ++ y) n = true := by
  induction x with
  | nil => simpa using h
  | cons c cs ih =>
    rw [List.cons_append, charsOccur, Bool.or_eq_true]
    exact Or.inr ih

/-- A substring of the right part occurs in an appended string. -/
theorem strContains_append_right (a b n : String) (h : strContains b n = true) :
    strContains (a ++ b) n = true := by
  have hd : (a ++ b).data = a.data ++ b.data := rfl
  rw [strContains, hd]
  exact charsOccur_append_right a.data b.data n.data h

/-- The reason after `applyOverrideCore` is the old reason plus the
note whenever the old reason is non-empty. -/
theorem applyOverrideCore_reason_of_nonempty (e l : ℚ) (r : EvalResult)
    (h : (r.reason.getD "").isEmpty = false) :
    (applyOverrideCore e l r).reason =
      some ((r.reason.getD "") ++ "\n\n" ++ overrideNote e l) := by
  simp [applyOverrideCore, h]

/-- The reason after `applyOverrideCore` is never empty. -/
theorem applyOverrideCore_reason_nonempty (e l : ℚ) (r : EvalResult) :
    ((applyOverrideCore e l r).reason.getD "").isEmpty = false := by
  have hpos := overrideNote_length_pos e l
  simp only [applyOverrideCore, Option.getD_some]
  by_cases hb : (r.reason.getD "").isEmpty
  · rw [if_pos hb, Bool.eq_false_iff]
    intro hemp
    exact overrideNote_ne_empty e l ((String.isEmpty_iff _).1 hemp)
  · rw [if_neg hb, Bool.eq_false_iff]
    intro hemp
    have hlen := congrArg String.length ((String.isEmpty_iff _).1 hemp)
    rw [String.length_append, String.length_append] at hlen
    simp at hlen
    omega

/-- C4: with context present, both timer values numeric and a positive
limit, `evaluate`'s timer override fires exactly when
`duration_ok = satisfied_flag OR (elapsed >= limit)`; in particular
when `duration_ok` is false the parsed result is returned with no field
changed. -/
theorem overrideConditionIsDurationOk (l e : ℚ) (sat : Bool) (r : EvalResult)
    (hl : 0 < l) :
    timerOverride (some (numericCtx l e sat)) r = r ↔
      duration_ok sat e l = false := by
  rw [timerOverride_numericCtx, if_pos hl]
  constructor
  · intro h
    cases hok : duration_ok sat e l with
    | false => rfl
    | true =>
      rw [if_pos hok] at h
      exact absurd h (applyOverrideCore_ne e l r)
  · intro h
    have hne : ¬ duration_ok sat e l = true := by simp [h]
    rw [if_neg hne]

theorem overrideConditionIsDurationOk_witness :
    (0:ℚ) < 300 ∧
      (timerOverride (some (numericCtx 300 100 false))
          { task_is_complete := some true, sub_scores := some [], reason := none } =
        { task_is_complete := some true, sub_scores := some [], reason := none } ↔
        duration_ok false 100 300 = false) :=
  ⟨by decide, overrideConditionIsDurationOk 300 100 false
    { task_is_complete := some true, sub_scores := some [], reason := none } (by decide)⟩

/-- C5: whenever the override preconditions fail — the context is
absent, the context lookup raises, a timer value is missing or
non-numeric, or the limit is non-positive — `evaluate` returns the
parsed result unchanged. -/
theorem overrideSkippedWhenPreconditionFails (context : Option Context) (r : EvalResult)
    (h : overridePreconditionFails context = true) :
    timerOverride context r = r := by
  cases context with
  | none => rfl
  | some ctx =>
    rcases ctx with ⟨tl, te, sat, gr, ti⟩
    cases gr with
    | true => rfl
    | false =>
      cases tl with
      | none => rfl
      | some lv =>
        cases te with
        | none => rfl
        | some ev =>
          cases lv with
          | nonNumeric => rfl
          | num lq =>
            cases ev with
            | nonNumeric => rfl
            | num eq =>
              simp only [overridePreconditionFails, toFloat, Bool.false_or] at h
              have hle : lq ≤ 0 := of_decide_eq_true h
              have heq : timerOverride
                  (some ⟨some (.num lq), some (.num eq), sat, false, ti⟩) r =
                  if lq > 0 then
                    if duration_ok sat eq lq then applyOverrideCore eq lq r else r
                  else r := rfl
              rw [heq, if_neg (not_lt.mpr hle)]

theorem overrideSkippedWhenPreconditionFails_witness :
    overridePreconditionFails
        (some ⟨some .nonNumeric, some (.num 10), true, false, none⟩) = true ∧
      timerOverride (some ⟨some .nonNumeric, some (.num 10), true, false, none⟩)
          { task_is_complete := some false, sub_scores := none, reason := some "r" } =
        { task_is_complete := some false, sub_scores := none, reason := some "r" } :=
  ⟨by decide, overrideSkippedWhenPreconditionFails
    (some ⟨some .nonNumeric, some (.num 10), true, false, none⟩)
    { task_is_complete := some false, sub_scores := none, reason := some "r" } (by decide)⟩

/-- C1 as stated is false on the code: a sub-score whose metric matches
the keyword set but whose evaluation is the uncertain glyph "❓" is not
left unchanged — the override rewrites it to "✅". -/
theorem uncertainSubScoreOverwritten_counterexample :
    (timerOverride (some (numericCtx 60 60 false))
        { task_is_complete := some true
          sub_scores := some [{ metric := "time limit respected", evaluation := "❓" }]
          reason := some "ok" }).sub_scores
      ≠ some [{ metric := "time limit respected", evaluation := "❓" }] := by decide

/-- C1 (amended): when the override fires, every sub-score whose metric
contains a duration keyword has its evaluation set to "✅" regardless of
its prior value (also from "❓"), and every sub-score whose metric does
not match the keyword set is left unchanged. -/
theorem matchingSubScoresForcedToPass (l e : ℚ) (sat : Bool) (r : EvalResult)
    (hl : 0 < l) (hok : duration_ok sat e l = true) (i : ℕ) (s : SubScore)
    (hs : (r.sub_scores.getD [])[i]? = some s) :
    (metricMentionsDuration s.metric = true →
        ((timerOverride (some (numericCtx l e sat)) r).sub_scores.getD [])[i]? =
          some { metric := s.metric, evaluation := "✅" })
    ∧ (metricMentionsDuration s.metric = false →
        ((timerOverride (some (numericCtx l e sat)) r).sub_scores.getD [])[i]? = some s) := by
  rw [timerOverride_numericCtx, if_pos hl, if_pos hok]
  constructor <;> intro hm <;>
    simp [applyOverrideCore, List.getElem?_map, hs, overrideSub, hm]

theorem matchingSubScoresForcedToPass_witness :
    (0:ℚ) < 300 ∧ duration_ok false 300 300 = true ∧
      ((fiveMinuteScenario false none).sub_scores.getD [])[0]? =
        some { metric := "Completed within 5 minutes", evaluation := "❌" } ∧
      ((metricMentionsDuration "Completed within 5 minutes" = true →
          ((timerOverride (some (numericCtx 300 300 false))
              (fiveMinuteScenario false none)).sub_scores.getD [])[0]? =
            some { metric := "Completed within 5 minutes", evaluation := "✅" })
        ∧ (metricMentionsDuration "Completed within 5 minutes" = false →
            ((timerOverride (some (numericCtx 300 300 false))
                (fiveMinuteScenario false none)).sub_scores.getD [])[0]? =
              some { metric := "Completed within 5 minutes", evaluation := "❌" })) :=
  ⟨by decide, by decide, by decide,
    matchingSubScoresForcedToPass 300 300 false (fiveMinuteScenario false none)
      (by decide) (by decide) 0
      { metric := "Completed within 5 minutes", evaluation := "❌" } (by decide)⟩

/-- C2 as stated is false on the code: when the parsed result has no
"task_is_complete" key, the override does not force the field to true —
the key stays absent (line 255 guards the write with
`if "task_is_complete" in result:`). -/
theorem taskCompleteAbsent_counterexample :
    (timerOverride (some (numericCtx 300 300 false))
        { task_is_complete := none, sub_scores := some [], reason := none }).task_is_complete
      ≠ some true := by decide

/-- C2 (amended): whenever `duration_ok` is true, the returned result
has `task_is_complete = true` provided the parsed result contains that
field (whatever its prior value); when the field is absent it remains
absent. -/
theorem taskCompleteForcedWhenPresent (l e : ℚ) (sat : Bool) (r : EvalResult)
    (hl : 0 < l) (hok : duration_ok sat e l = true) :
    (r.task_is_complete.isSome = true →
        (timerOverride (some (numericCtx l e sat)) r).task_is_complete = some true)
    ∧ (r.task_is_complete = none →
        (timerOverride (some (numericCtx l e sat)) r).task_is_complete = none) := by
  rw [timerOverride_numericCtx, if_pos hl, if_pos hok]
  constructor <;> intro ht <;> simp [applyOverrideCore, ht]

theorem taskCompleteForcedWhenPresent_witness :
    (0:ℚ) < 300 ∧ duration_ok false 300 300 = true ∧
      (((fiveMinuteScenario false none).task_is_complete.isSome = true →
          (timerOverride (some (numericCtx 300 300 false))
              (fiveMinuteScenario false none)).task_is_complete = some true)
        ∧ ((fiveMinuteScenario false none).task_is_complete = none →
            (timerOverride (some (numericCtx 300 300 false))
                (fiveMinuteScenario false none)).task_is_complete = none)) :=
  ⟨by decide, by decide,
    taskCompleteForcedWhenPresent 300 300 false (fiveMinuteScenario false none)
      (by decide) (by decide)⟩

/-- C10: when the override fires on a parsed result that has no
"sub_scores" key at all, the returned mapping gains a "sub_scores" key
mapped to the empty list (`result.get("sub_scores", [])` defaults to
`[]` and line 251 writes it back). -/
theorem overrideCreatesSubScoresKey (l e : ℚ) (sat : Bool) (t : Option Bool)
    (reason0 : Option String) (hl : 0 < l) (hok : duration_ok sat e l = true) :
    (timerOverride (some (numericCtx l e sat))
        { task_is_complete := t, sub_scores := none, reason := reason0 }).sub_scores
      = some [] := by
  rw [timerOverride_numericCtx, if_pos hl, if_pos hok]
  simp [applyOverrideCore]

theorem overrideCreatesSubScoresKey_witness :
    (0:ℚ) < 300 ∧ duration_ok false 300 300 = true ∧
      (timerOverride (some (numericCtx 300 300 false))
          { task_is_complete := none, sub_scores := none, reason := none }).sub_scores
        = some [] :=
  ⟨by decide, by decide,
    overrideCreatesSubScoresKey 300 300 false none none (by decide) (by decide)⟩

/-- Anything contained in the override note is contained in the reason
`applyOverrideCore` produces. -/
theorem applyOverrideCore_reason_contains (e l : ℚ) (r : EvalResult) (n : String)
    (h : strContains (overrideNote e l) n = true) :
    strContains ((applyOverrideCore e l r).reason.getD "") n = true := by
  simp only [applyOverrideCore, Option.getD_some]
  by_cases hb : (r.reason.getD "").isEmpty
  · rw [if_pos hb]
    exact h
  · rw [if_neg hb]
    exact strContains_append_right _ _ _ h

/-- C3 as stated is false on the code: the pass `evaluate` applies is
not idempotent — a second application appends the explanatory note
again (there is no duplicate check), so the note appears twice in the
reason. -/
theorem overrideNotIdempotent_counterexample :
    (timerOverride (some (numericCtx 300 300 false))
          (timerOverride (some (numericCtx 300 300 false))
            (fiveMinuteScenario false none))).reason
        = some (overrideNote 300 300 ++ "\n\n" ++ overrideNote 300 300)
    ∧ timerOverride (some (numericCtx 300 300 false))
          (timerOverride (some (numericCtx 300 300 false))
            (fiveMinuteScenario false none))
        ≠ timerOverride (some (numericCtx 300 300 false))
            (fiveMinuteScenario false none) :=
  ⟨by decide, by decide⟩

/-- C3 (amended): a second application of the firing override leaves
`sub_scores` and `task_is_complete` unchanged, but unconditionally
appends the note to the reason again — the pass is idempotent except in
the reason field, where the note is duplicated. -/
theorem secondOverrideAppendsNoteAgain (l e : ℚ) (sat : Bool) (r : EvalResult)
    (hl : 0 < l) (hok : duration_ok sat e l = true) :
    (timerOverride (some (numericCtx l e sat))
          (timerOverride (some (numericCtx l e sat)) r)).sub_scores
        = (timerOverride (some (numericCtx l e sat)) r).sub_scores
    ∧ (timerOverride (some (numericCtx l e sat))
          (timerOverride (some (numericCtx l e sat)) r)).task_is_complete
        = (timerOverride (some (numericCtx l e sat)) r).task_is_complete
    ∧ (timerOverride (some (numericCtx l e sat))
          (timerOverride (some (numericCtx l e sat)) r)).reason
        = some (((timerOverride (some (numericCtx l e sat)) r).reason.getD "")
            ++ "\n\n" ++ overrideNote e l) := by
  have hstep : ∀ x : EvalResult,
      timerOverride (some (numericCtx l e sat)) x = applyOverrideCore e l x := fun x => by
    rw [timerOverride_numericCtx, if_pos hl, if_pos hok]
  rw [hstep, hstep]
  refine ⟨?_, ?_, ?_⟩
  · simp only [applyOverrideCore, Option.getD_some]
    rw [List.map_map, show overrideSub ∘ overrideSub = overrideSub from
      funext overrideSub_idem]
  · cases ht : r.task_is_complete <;> simp [applyOverrideCore, ht]
  · exact applyOverrideCore_reason_of_nonempty e l _
      (applyOverrideCore_reason_nonempty e l r)

theorem secondOverrideAppendsNoteAgain_witness :
    (0:ℚ) < 300 ∧ duration_ok false 300 300 = true ∧
      ((timerOverride (some (numericCtx 300 300 false))
            (timerOverride (some (numericCtx 300 300 false))
              (fiveMinuteScenario false none))).sub_scores
          = (timerOverride (some (numericCtx 300 300 false))
              (fiveMinuteScenario false none)).sub_scores
        ∧ (timerOverride (some (numericCtx 300 300 false))
              (timerOverride (some (numericCtx 300 300 false))
                (fiveMinuteScenario false none))).task_is_complete
            = (timerOverride (some (numericCtx 300 300 false))
                (fiveMinuteScenario false none)).task_is_complete
        ∧ (timerOverride (some (numericCtx 300 300 false))
              (timerOverride (some (numericCtx 300 300 false))
                (fiveMinuteScenario false none))).reason
            = some (((timerOverride (some (numericCtx 300 300 false))
                  (fiveMinuteScenario false none)).reason.getD "")
                ++ "\n\n" ++ overrideNote 300 300)) :=
  ⟨by decide, by decide,
    secondOverrideAppendsNoteAgain 300 300 false (fiveMinuteScenario false none)
      (by decide) (by decide)⟩

/-- C6: on the spec's five-minute scenario with limit = elapsed = 300,
the override yields the sub-score at "✅" and task_is_complete = true,
the reason contains "elapsed 300.0s" and "limit of 300.0s", the note is
the entire reason when the prior reason was empty, and otherwise the
note is appended after the prior text rather than replacing it. -/
theorem fiveMinuteScenarioOverride (t : Bool) (reason0 : Option String) :
    (timerOverride (some (numericCtx 300 300 false))
          (fiveMinuteScenario t reason0)).sub_scores
        = some [{ metric := "Completed within 5 minutes", evaluation := "✅" }]
    ∧ (timerOverride (some (numericCtx 300 300 false))
          (fiveMinuteScenario t reason0)).task_is_complete = some true
    ∧ strContains ((timerOverride (some (numericCtx 300 300 false))
          (fiveMinuteScenario t reason0)).reason.getD "") "elapsed 300.0s" = true
    ∧ strContains ((timerOverride (some (numericCtx 300 300 false))
          (fiveMinuteScenario t reason0)).reason.getD "") "limit of 300.0s" = true
    ∧ (reason0.getD "" = "" →
        (timerOverride (some (numericCtx 300 300 false))
            (fiveMinuteScenario t reason0)).reason = some (overrideNote 300 300))
    ∧ ∀ s0 : String, reason0 = some s0 → s0 ≠ "" →
        (timerOverride (some (numericCtx 300 300 false))
            (fiveMinuteScenario t reason0)).reason
          = some (s0 ++ "\n\n" ++ overrideNote 300 300) := by
  have hm : metricMentionsDuration "Completed within 5 minutes" = true := by decide
  have hn1 : strContains (overrideNote 300 300) "elapsed 300.0s" = true := by decide
  have hn2 : strContains (overrideNote 300 300) "limit of 300.0s" = true := by decide
  have hstep : timerOverride (some (numericCtx 300 300 false))
      (fiveMinuteScenario t reason0)
      = applyOverrideCore 300 300 (fiveMinuteScenario t reason0) := by
    rw [timerOverride_numericCtx, if_pos (by decide), if_pos (by decide)]
  rw [hstep]
  refine ⟨?_, ?_, ?_, ?_, ?_, ?_⟩
  · simp [applyOverrideCore, fiveMinuteScenario, overrideSub, hm]
  · simp [applyOverrideCore, fiveMinuteScenario]
  · exact applyOverrideCore_reason_contains 300 300 _ _ hn1
  · exact applyOverrideCore_reason_contains 300 300 _ _ hn2
  · intro h5
    rcases reason0 with _ | s0
    · simp [applyOverrideCore, fiveMinuteScenario, show String.isEmpty "" = true from rfl]
    · simp only [Option.getD_some] at h5
      subst h5
      simp [applyOverrideCore, fiveMinuteScenario, show String.isEmpty "" = true from rfl]
  · intro s0 h6 hne
    subst h6
    have hb : s0.isEmpty = false := by
      rw [Bool.eq_false_iff]
      intro hemp
      exact hne ((String.isEmpty_iff s0).1 hemp)
    simp [applyOverrideCore, fiveMinuteScenario, hb]

theorem fiveMinuteScenarioOverride_witness :
    (timerOverride (some (numericCtx 300 300 false))
        (fiveMinuteScenario false (some "Prior verdict."))).reason
      = some ("Prior verdict." ++ "\n\n" ++ overrideNote 300 300) :=
  (fiveMinuteScenarioOverride false (some "Prior verdict.")).2.2.2.2.2 "Prior verdict."
    rfl (by decide)

/-- C7: contrary to the claim, `context_provision` with a present
context whose tool-information lookup yields no mapping does not treat
this as "no tools available": the `for` iteration over the absent
mapping raises `TypeError`, and nothing in the function catches it. -/
theorem contextProvisionRaisesOnMissingToolInfo :
    context_provision (some ⟨none, none, false, false, none⟩)
      = Except.error "TypeError: argument of type NoneType is not iterable" := rfl

/-- C8: for every context and parsed result, the override preserves the
sub_scores sequence structurally — same length and the same entries in
the same order, where an entry is either returned exactly as given or
differs only in its evaluation field, which is set to "✅". -/
theorem subScoresStructurePreserved (context : Option Context) (r : EvalResult) :
    ((timerOverride context r).sub_scores.getD []).length
        = (r.sub_scores.getD []).length
    ∧ ∀ i : ℕ,
        ((timerOverride context r).sub_scores.getD [])[i]? = (r.sub_scores.getD [])[i]?
        ∨ ∃ s : SubScore, (r.sub_scores.getD [])[i]? = some s
            ∧ ((timerOverride context r).sub_scores.getD [])[i]? =
                some { metric := s.metric, evaluation := "✅" } := by
  rcases timerOverride_cases context r with h | ⟨e, l, h⟩
  · rw [h]
    exact ⟨rfl, fun i => Or.inl rfl⟩
  · rw [h]
    constructor
    · simp [applyOverrideCore]
    · intro i
      simp only [applyOverrideCore, Option.getD_some, List.getElem?_map]
      cases hi : (r.sub_scores.getD [])[i]? with
      | none => exact Or.inl rfl
      | some s =>
        by_cases hm : metricMentionsDuration s.metric = true
        · exact Or.inr ⟨s, rfl, by simp [overrideSub, hm]⟩
        · exact Or.inl (by simp [overrideSub, hm])

/-- C9: the standalone `_apply_timer_override_if_needed` and the inline
override in `evaluate` are not extensionally equivalent. At
elapsed = 0.95·limit the standalone fires (its threshold is 90% of the
limit) while the inline does not; on a duration sub-score at "❓" with
elapsed = limit the standalone leaves "❓" (it only flips "❌") while the
inline forces "✅"; with only the satisfied flag set and a short elapsed
time the inline fires while the standalone (which never reads the flag)
does not; and re-applying the standalone is a no-op thanks to its
duplicate check while the inline appends its note again. -/
theorem inlineAndStandaloneOverridesDiffer :
    (timerOverride (some (numericCtx 100 95 false))
          { task_is_complete := some false, sub_scores := some [], reason := none }
        = { task_is_complete := some false, sub_scores := some [], reason := none }
      ∧ (applyTimerOverrideIfNeeded (numericCtx 100 95 false)
            { sub_scores := [], is_passed := none, reason := "" }).reason
          = overrideNote 95 100)
    ∧ ((applyTimerOverrideIfNeeded (numericCtx 100 100 false)
            { sub_scores := [{ metric := "time limit", evaluation := "❓" }],
              is_passed := none, reason := "" }).sub_scores
          = [{ metric := "time limit", evaluation := "❓" }]
      ∧ (timerOverride (some (numericCtx 100 100 false))
            { task_is_complete := none,
              sub_scores := some [{ metric := "time limit", evaluation := "❓" }],
              reason := none }).sub_scores
          = some [{ metric := "time limit", evaluation := "✅" }])
    ∧ ((timerOverride (some (numericCtx 100 10 true))
            { task_is_complete := some false, sub_scores := some [], reason := none }).reason
          = some (overrideNote 10 100)
      ∧ applyTimerOverrideIfNeeded (numericCtx 100 10 true)
            { sub_scores := [], is_passed := none, reason := "" }
          = { sub_scores := [], is_passed := none, reason := "" })
    ∧ applyTimerOverrideIfNeeded (numericCtx 100 95 false)
          (applyTimerOverrideIfNeeded (numericCtx 100 95 false)
            { sub_scores := [], is_passed := none, reason := "" })
        = applyTimerOverrideIfNeeded (numericCtx 100 95 false)
            { sub_scores := [], is_passed := none, reason := "" } :=
  ⟨⟨by decide, by decide⟩, ⟨by decide, by decide⟩, ⟨by decide, by decide⟩, by decide⟩
